import Mathlib

/-!
# ExoStack hub coordination core — shallow embedding and verification

This file embeds the hub-side coordination core of the ExoStack repository
(task dispatch routes in `exo_hub/routers/tasks.py`, the node routes in
`exo_hub/routers/nodes.py`, the P2P handoff evaluator in
`exo_hub/services/p2p_handoff_manager.py`, and the agent-side loop in
`exo_agent/agent.py` / `exo_agent/utils.py`) and proves properties of the
embedded operations.

The repository ships the routers and the handoff manager, but not the
`registry` / `scheduler` / `models` service modules they import; those
are modelled from the specification (each such definition is marked
`Modelled from the spec:`).  Python dictionaries become records or
association lists, floats become rationals, timestamps become naturals,
and HTTP exceptions become an explicit error constructor.
-/

namespace ExoStack

/-- Result payload stored on a task record.  The source stores either a
`TaskResult` dict (opaque output plus metrics) on completion or an
`{"error": message}` dict on failure; the payload is opaque to the core. -/
inductive ResultVal where
  | output : String → ResultVal
  | errorInfo : String → ResultVal
deriving DecidableEq, Repr

/-- Agent (node) record.  Fields mirror the agent dicts consumed by the
routers and the handoff manager; fields the Python code reads with
`dict.get(key, default)` are `Option`s so an absent key is representable. -/
structure NodeRec where
  id : String
  status : String
  current_load : Option ℚ := none
  active_tasks : Option ℕ := none
  tasks_completed : Option ℕ := none
  tasks_failed : Option ℕ := none
deriving DecidableEq, Repr

/-- Task record as read and mutated by the routers: model identifier,
status string, owning agent (`node_id`) and the stored result. -/
structure TaskRec where
  model : String
  status : String
  node_id : Option String := none
  result : Option ResultVal := none
deriving DecidableEq, Repr

/-- Registry state: agent records, task records keyed by task id, and the
pending queue of task ids.  `Modelled from the spec:` the `registry`
service module is not in the repository sources; the spec describes it as
the single source of truth for agent and task records plus the pending
queue. -/
structure RegState where
  nodes : List NodeRec
  tasks : List (String × TaskRec)
  pending : List String
deriving DecidableEq, Repr

/-- Look up a task record by id in an association list. -/
def lookupTask (ts : List (String × TaskRec)) (task_id : String) : Option TaskRec :=
  (ts.find? (fun p => p.1 == task_id)).map Prod.snd

/-- Replace the record stored under `task_id` (first matching key). -/
def setTask (ts : List (String × TaskRec)) (task_id : String) (t : TaskRec) :
    List (String × TaskRec) :=
  ts.map (fun p => if p.1 == task_id then (p.1, t) else p)

/-- `Modelled from the spec:` `registry.get_node` — `GetAgent(id)`. -/
def get_node (s : RegState) (node_id : String) : Option NodeRec :=
  s.nodes.find? (fun n => n.id == node_id)

/-- `Modelled from the spec:` `registry.get_task` — `GetTask(id)`. -/
def get_task (s : RegState) (task_id : String) : Option TaskRec :=
  lookupTask s.tasks task_id

/-- `Modelled from the spec:` `registry.get_all_nodes` — `ListAgents`. -/
def get_all_nodes (s : RegState) : List NodeRec :=
  s.nodes

/-- `Modelled from the spec:` `registry.get_pending_task` reads the head of
the pending queue ("pop head of queue"; the pop is completed when the
caller moves the task out of `pending` via `update_task_status`). -/
def get_pending_task (s : RegState) : Option String :=
  s.pending.head?

/-- A status counted against an agent's active-task tally (spec invariant 3:
for every online agent, `active_tasks` equals the count of its tasks in
`running` or `assigned`). -/
def countedStatus (st : String) : Bool :=
  st == "running" || st == "assigned"

/-- The adjustment a task-status transition applies to one agent record to
keep spec invariant 3: drop the task from its old owner's tally when it
was counted, add it to the new owner's when it now counts. -/
def adjustActive (oldStatus : String) (oldOwner : Option String)
    (newStatus : String) (newOwner : Option String) (n : NodeRec) : NodeRec :=
  { n with active_tasks := some ((n.active_tasks.getD 0)
      - (if countedStatus oldStatus && (oldOwner == some n.id) then 1 else 0)
      + (if countedStatus newStatus && (newOwner == some n.id) then 1 else 0)) }

/-- `Modelled from the spec:` `registry.update_task_status` — the registry
mutation behind `PUT /tasks/{task_id}/status`: sets the task's status and,
when given, its owner and result; returns `false` (only) for an unknown
task id.  Spec invariants are preserved: the agents' active-task counters
track owned `running`/`assigned` tasks (invariant 3) and the pending queue
holds exactly the `pending` tasks (queue invariant). -/
def update_task_status (s : RegState) (task_id status : String)
    (node_id : Option String) (result : Option ResultVal) : Bool × RegState :=
  match lookupTask s.tasks task_id with
  | none => (false, s)
  | some t =>
    let owner : Option String := node_id.or t.node_id
    let res : Option ResultVal := result.or t.result
    let t' : TaskRec := { t with status := status, node_id := owner, result := res }
    let nodes' := s.nodes.map (adjustActive t.status t.node_id status owner)
    let pending' :=
      if status == "pending" then
        if s.pending.contains task_id then s.pending else s.pending ++ [task_id]
      else s.pending.erase task_id
    (true, { nodes := nodes', tasks := setTask s.tasks task_id t', pending := pending' })

/-- Outcome of an HTTP route handler: a payload, or an
`HTTPException(status_code, detail)`. -/
inductive ApiResult (α : Type) where
  | ok : α → ApiResult α
  | error : ℕ → String → ApiResult α
deriving DecidableEq, Repr

/-- Response of `GET /tasks/agent/{node_id}/next`: either an assignment
`{task_id, task_data, assigned_to}` or the `{"message": "No pending
tasks"}` body. -/
inductive NextTaskResponse where
  | assignedTask : String → TaskRec → String → NextTaskResponse
  | noPending : NextTaskResponse
deriving DecidableEq, Repr

/-- Embeds `get_next_task_for_agent` (`exo_hub/routers/tasks.py`): verify
the agent exists and is online, read the head of the pending queue, and
mark the task `running` for this agent. -/
def get_next_task_for_agent (s : RegState) (node_id : String) :
    ApiResult NextTaskResponse × RegState :=
  match get_node s node_id with
  | none => (.error 404 "Agent not found", s)
  | some node =>
    if node.status ≠ "online" then (.error 400 "Agent is not online", s)
    else
      match get_pending_task s with
      | none => (.ok .noPending, s)
      | some task_id =>
        match get_task s task_id with
        | none => (.ok .noPending, s)
        | some task =>
          let r := update_task_status s task_id "running" (some node_id) none
          (.ok (.assignedTask task_id task node_id), r.2)

/-- Response of the completion/failure routes. -/
structure ReportResponse where
  status : String
  task_id : String
  agent : String
deriving DecidableEq, Repr

/-- Embeds `complete_task_for_agent` (`POST
/tasks/agent/{node_id}/complete/{task_id}`): 404 for an unknown task, 403
when the task is not assigned to this agent, else store the result with
status `completed`. -/
def complete_task_for_agent (s : RegState) (node_id task_id : String)
    (result : ResultVal) : ApiResult ReportResponse × RegState :=
  match get_task s task_id with
  | none => (.error 404 "Task not found", s)
  | some task =>
    if task.node_id ≠ some node_id then
      (.error 403 "Task not assigned to this agent", s)
    else
      let r := update_task_status s task_id "completed" (some node_id) (some result)
      if r.1 then (.ok ⟨"completed", task_id, node_id⟩, r.2)
      else (.error 500 "Failed to update task", r.2)

/-- Embeds `fail_task_for_agent` (`POST
/tasks/agent/{node_id}/fail/{task_id}`): same ownership checks, stores
`{"error": error}` with status `failed`. -/
def fail_task_for_agent (s : RegState) (node_id task_id : String)
    (error : String) : ApiResult ReportResponse × RegState :=
  match get_task s task_id with
  | none => (.error 404 "Task not found", s)
  | some task =>
    if task.node_id ≠ some node_id then
      (.error 403 "Task not assigned to this agent", s)
    else
      let r := update_task_status s task_id "failed" (some node_id)
        (some (.errorInfo error))
      if r.1 then (.ok ⟨"failed", task_id, node_id⟩, r.2)
      else (.error 500 "Failed to update task", r.2)

/-- Response of `POST /nodes/heartbeat`: the fixed message and the echoed
request payload (the payload is opaque to the handler). -/
structure HeartbeatResponse where
  message : String
  data : String
deriving DecidableEq, Repr

/-- Embeds `heartbeat` (`exo_hub/routers/nodes.py`): returns the canned
success body and touches no state (the handler takes no registry). -/
def heartbeat (data : String) : HeartbeatResponse :=
  ⟨"Heartbeat received", data⟩

/-- Embeds `register_node` (`exo_hub/routers/nodes.py`): canned success
body, no state touched. -/
def register_node (data : String) : HeartbeatResponse :=
  ⟨"Node registered", data⟩

/-! ## P2P handoff manager (`exo_hub/services/p2p_handoff_manager.py`) -/

/-- A handoff record as built by `initiate_handoff`; ISO timestamps are
modelled as naturals (seconds). -/
structure HandoffRecord where
  task_id : String
  from_agent : String
  to_agent : String
  initiated_at : ℕ
  status : String
  completed_at : Option ℕ := none
deriving DecidableEq, Repr

/-- State of the `P2PHandoffManager` singleton: `active_handoffs`
(task_id → record), `agent_capabilities` (agent_id → supported model
list), and the `handoff_history` list. -/
structure MgrState where
  active_handoffs : List (String × HandoffRecord) := []
  agent_capabilities : List (String × List String) := []
  handoff_history : List HandoffRecord := []
deriving DecidableEq, Repr

/-- Dict write `active_handoffs[task_id] = r` (overwrite or add). -/
def setActive (l : List (String × HandoffRecord)) (task_id : String)
    (r : HandoffRecord) : List (String × HandoffRecord) :=
  if l.any (fun p => p.1 == task_id) then
    l.map (fun p => if p.1 == task_id then (p.1, r) else p)
  else l ++ [(task_id, r)]

/-- Dict delete `del active_handoffs[task_id]`. -/
def removeActive (l : List (String × HandoffRecord)) (task_id : String) :
    List (String × HandoffRecord) :=
  l.filter (fun p => p.1 != task_id)

/-- The `supported_models` list `_supports_model` reads for an agent: its
capability entry's list, defaulting to the empty list when the agent has
no entry (`capabilities.get(agent_id, {})` then
`.get("supported_models", [])`). -/
def declared_models (m : MgrState) (agent_id : String) : List String :=
  match m.agent_capabilities.find? (fun p => p.1 == agent_id) with
  | some p => p.2
  | none => []

/-- Embeds `_supports_model`: the agent's declared `supported_models`
contain the model, or the declared list is empty. -/
def supports_model (m : MgrState) (agent_id model_name : String) : Bool :=
  (declared_models m agent_id).contains model_name ||
    (declared_models m agent_id).length == 0

/-- The score a single candidate receives in `_score_candidates`:
load factor, capacity factor, success-rate factor, and the model
compatibility bonus, summed in that order. -/
def candidateScore (m : MgrState) (task : TaskRec) (c : NodeRec) : ℚ :=
  let load : ℚ := c.current_load.getD 1
  let s1 : ℚ := (1 - load) * 40
  let active : ℕ := c.active_tasks.getD 99
  let s2 : ℚ := ((max 0 (5 - (active : ℤ))) * 10 : ℤ)
  let completed : ℕ := c.tasks_completed.getD 0
  let failed : ℕ := c.tasks_failed.getD 0
  let total : ℕ := completed + failed
  let s3 : ℚ := if 0 < total then ((completed : ℚ) / (total : ℚ)) * 30 else 0
  let s4 : ℚ := if supports_model m c.id task.model then 20 else 0
  s1 + s2 + s3 + s4

/-- Keep the higher-scored of two scored candidates, preferring the
earlier one on ties. -/
def betterOf (b y : NodeRec × ℚ) : NodeRec × ℚ :=
  if y.2 > b.2 then y else b

/-- Head of the stable descending sort of a scored candidate list: the
earliest entry with the maximal score (`sort(reverse=True)` is stable, and
`_score_candidates` only reads `scored_candidates[0]`). -/
def pickBest : List (NodeRec × ℚ) → Option (NodeRec × ℚ)
  | [] => none
  | x :: xs => some (xs.foldl betterOf x)

/-- Embeds `_score_candidates`: score every candidate, rank them, and
return the best candidate only when its score exceeds 50. -/
def score_candidates (m : MgrState) (task : TaskRec) (_current_agent : NodeRec)
    (candidates : List NodeRec) : Option NodeRec :=
  match pickBest (candidates.map (fun c => (c, candidateScore m task c))) with
  | some b => if b.2 > 50 then some b.1 else none
  | none => none

/-- The online agents, as filtered in `evaluate_handoff_candidate`. -/
def online_agents (s : RegState) : List NodeRec :=
  (get_all_nodes s).filter (fun a => a.status == "online")

/-- The candidate set built by `evaluate_handoff_candidate`'s loop: skip
the caller, keep agents with `current_load < 0.7` and `active_tasks < 3`
(`dict.get` defaults 0 and 0). -/
def candidate_agents (s : RegState) (current_agent_id : String) : List NodeRec :=
  (online_agents s).filter (fun a =>
    a.id != current_agent_id &&
    decide ((a.current_load.getD 0) < 7/10) &&
    decide ((a.active_tasks.getD 0) < 3))

/-- Embeds `evaluate_handoff_candidate`: returns the id of the best
handoff candidate for the task, or `none`. -/
def evaluate_handoff_candidate (s : RegState) (m : MgrState)
    (task_id current_agent_id : String) : Option String :=
  match get_task s task_id with
  | none => none
  | some task =>
    match get_node s current_agent_id with
    | none => none
    | some current_agent =>
      let candidates := candidate_agents s current_agent_id
      if candidates.isEmpty then none
      else
        match score_candidates m task current_agent candidates with
        | some best => some best.id
        | none => none

/-- Observable steps `initiate_handoff` performs, in program order; used
to state ordering properties (history append before active-record
removal). -/
inductive HandoffEvent where
  | activeInsert : String → HandoffEvent
  | registryReassign : String → String → HandoffEvent
  | historyAppend : HandoffRecord → HandoffEvent
  | activeRemove : String → HandoffEvent
deriving DecidableEq, Repr

/-- Embeds `initiate_handoff`.  The outcome of `_notify_agent_handoff`
(network I/O) is the parameter `notify_ok`; `now` stands for
`datetime.now()`.  Returns the boolean result, the updated registry and
manager states, and the trace of observable steps in program order.  The
`finally` block runs on every exit path — including the three early
`return False` paths — and deletes the `active_handoffs[task_id]` entry
when one exists (`removeActive` is the identity when none does); each
path's trace therefore ends with `activeRemove`. -/
def initiate_handoff (s : RegState) (m : MgrState)
    (task_id from_agent to_agent : String) (notify_ok : Bool) (now : ℕ) :
    Bool × RegState × MgrState × List HandoffEvent :=
  match get_task s task_id with
  | none =>
    (false, s,
      { m with active_handoffs := removeActive m.active_handoffs task_id },
      [.activeRemove task_id])
  | some _ =>
    match get_node s to_agent with
    | none =>
      (false, s,
        { m with active_handoffs := removeActive m.active_handoffs task_id },
        [.activeRemove task_id])
    | some target =>
      if target.status ≠ "online" then
        (false, s,
          { m with active_handoffs := removeActive m.active_handoffs task_id },
          [.activeRemove task_id])
      else
        let info : HandoffRecord :=
          ⟨task_id, from_agent, to_agent, now, "pending", none⟩
        let m1 := { m with active_handoffs := setActive m.active_handoffs task_id info }
        if notify_ok then
          let r := update_task_status s task_id "running" (some to_agent) none
          let info' : HandoffRecord :=
            { info with status := "completed", completed_at := some now }
          let m2 := { m1 with
            active_handoffs := setActive m1.active_handoffs task_id info',
            handoff_history := m1.handoff_history ++ [info'] }
          let m3 := { m2 with
            active_handoffs := removeActive m2.active_handoffs task_id }
          (true, r.2, m3,
            [.activeInsert task_id, .registryReassign task_id to_agent,
             .historyAppend info', .activeRemove task_id])
        else
          let info' : HandoffRecord := { info with status := "failed" }
          let m2 := { m1 with
            active_handoffs := setActive m1.active_handoffs task_id info' }
          let m3 := { m2 with
            active_handoffs := removeActive m2.active_handoffs task_id }
          (false, s, m3, [.activeInsert task_id, .activeRemove task_id])

/-- Statistics record of `get_handoff_stats`.  Keys the empty-history
branch omits are `Option`s.  `success_rate` and
`average_handoffs_per_hour` carry the exact rational values; the source
applies `round(-, 2)` for display only. -/
structure HandoffStats where
  total_handoffs : ℕ
  success_rate : ℚ
  average_handoffs_per_hour : ℚ
  successful_handoffs : Option ℕ := none
  active_handoffs : Option ℕ := none
  recent_handoffs : Option (List HandoffRecord) := none
deriving DecidableEq, Repr

/-- Embeds `get_handoff_stats`: totals, success rate, active count, and
the rolling per-hour rate over records initiated within the last 24 hours
(86 400 s), all computed from `handoff_history`. -/
def get_handoff_stats (m : MgrState) (now : ℕ) : HandoffStats :=
  let total := m.handoff_history.length
  if total = 0 then
    { total_handoffs := 0, success_rate := 0, average_handoffs_per_hour := 0 }
  else
    let successful :=
      (m.handoff_history.filter (fun h => h.status == "completed")).length
    let success_rate : ℚ := ((successful : ℚ) / (total : ℚ)) * 100
    let recent := m.handoff_history.filter
      (fun h => ((now : ℤ) - (h.initiated_at : ℤ)) < 86400)
    let handoffs_per_hour : ℚ := (recent.length : ℚ) / 24
    { total_handoffs := total
      success_rate := success_rate
      average_handoffs_per_hour := handoffs_per_hour
      successful_handoffs := some successful
      active_handoffs := some m.active_handoffs.length
      recent_handoffs := some (recent.drop (recent.length - 10)) }

/-- `n` successive `initiate_handoff` calls with the same arguments and a
successful notification each time. -/
def iterate_handoffs (s : RegState) (m : MgrState)
    (task_id from_agent to_agent : String) (now : ℕ) : ℕ → RegState × MgrState
  | 0 => (s, m)
  | n + 1 =>
    let p := iterate_handoffs s m task_id from_agent to_agent now n
    let r := initiate_handoff p.1 p.2 task_id from_agent to_agent true now
    (r.2.1, r.2.2.1)

/-- Precondition under which `initiate_handoff` succeeds (given a
successful notification): the task exists and the target agent is
online. -/
def handoffReady (s : RegState) (task_id to_agent : String) : Prop :=
  (∃ t, get_task s task_id = some t) ∧
    (∃ tgt, get_node s to_agent = some tgt ∧ tgt.status = "online")

/-! ## Spec-side scoring formula (for comparison with `_score_candidates`) -/

/-- The handoff scoring total exactly as §4.5 of the spec words it:
`load_score + capacity_score + reliability_score + capability_score`. -/
def specTotalScore (load : ℚ) (active completed failed : ℕ)
    (supports : Bool) : ℚ :=
  (1 - load) * 40
    + ((max 0 (5 - (active : ℤ))) * 10 : ℤ)
    + (if 0 < completed + failed then
        ((completed : ℚ) / ((completed + failed : ℕ) : ℚ)) * 30 else 0)
    + (if supports then 20 else 0)

/-! ## Concrete states used to instantiate the theorems -/

/-- One online agent `a1` (zero active tasks) and one pending task `t1`. -/
def sClaim : RegState :=
  { nodes := [{ id := "a1", status := "online", active_tasks := some 0 }],
    tasks := [("t1", { model := "m1", status := "pending" })],
    pending := ["t1"] }

/-- Task `t1` as already completed by `a1` with result `{output: "x"}`. -/
def tDone : TaskRec :=
  { model := "m1", status := "completed", node_id := some "a1",
    result := some (.output "x") }

/-- Registry state holding only the completed task `t1` and agent `a1`. -/
def sDone : RegState :=
  { nodes := [{ id := "a1", status := "online" }],
    tasks := [("t1", tDone)],
    pending := [] }

/-- Scenario S5's caller `a1`: load 0.9, 3 active, 10 completed, 0 failed. -/
def a1S5 : NodeRec :=
  { id := "a1", status := "online", current_load := some (9/10),
    active_tasks := some 3, tasks_completed := some 10, tasks_failed := some 0 }

/-- Scenario S5's `a2`: load 0.1, 0 active, 20 completed, 0 failed. -/
def a2S5 : NodeRec :=
  { id := "a2", status := "online", current_load := some (1/10),
    active_tasks := some 0, tasks_completed := some 20, tasks_failed := some 0 }

/-- Scenario S5's `a3`: load 0.5, 2 active, 5 completed, 5 failed. -/
def a3S5 : NodeRec :=
  { id := "a3", status := "online", current_load := some (1/2),
    active_tasks := some 2, tasks_completed := some 5, tasks_failed := some 5 }

/-- Scenario S5's running task, owned by the caller `a1`. -/
def taskS5 : TaskRec :=
  { model := "m-small", status := "running", node_id := some "a1" }

/-- Scenario S5's registry state. -/
def sS5 : RegState :=
  { nodes := [a1S5, a2S5, a3S5], tasks := [("t1", taskS5)], pending := [] }

/-- Scenario S5's manager state: `a2` declares support for the task's
model (the others have no capability entry). -/
def mS5 : MgrState :=
  { agent_capabilities := [("a2", ["m-small"])] }

/-- A task `t1` running on `a1`. -/
def tRunning : TaskRec :=
  { model := "m1", status := "running", node_id := some "a1" }

/-- A running task `t1` owned by `a1`, and an online target agent `a2`. -/
def sHandoff : RegState :=
  { nodes := [{ id := "a1", status := "online" },
              { id := "a2", status := "online" }],
    tasks := [("t1", tRunning)],
    pending := [] }

/-- A fresh handoff manager. -/
def mEmpty : MgrState := {}

end ExoStack

namespace ExoAgent

/-- Truthiness of a Python function's return value: `None` is falsy. -/
def truthy : Option Unit → Bool
  | none => false
  | some _ => true

/-- Embeds `exo_agent.utils.register_agent`: posts to
`{hub_url}/nodes/register` and falls off the end, returning `None`. -/
def register_agent (_agent_id _hub_url : String) : Option Unit :=
  none

/-- Embeds `exo_agent.utils.heartbeat`: posts to
`{hub_url}/nodes/heartbeat` and falls off the end, returning `None`. -/
def heartbeat (_agent_id _hub_url : String) : Option Unit :=
  none

/-- The registration retry loop at the top of `main_loop`: up to
`retries` attempts, returning whether the "Successfully registered"
branch was ever taken. -/
def register_loop (agent_id hub_url : String) : ℕ → Bool
  | 0 => false
  | n + 1 =>
    if truthy (register_agent agent_id hub_url) then true
    else register_loop agent_id hub_url n

/-- One iteration of the heartbeat logic in `main_loop`'s `while True`
body: on a truthy heartbeat reset the failure counter; otherwise count a
failure and, at `max_consecutive_failures = 5`, re-register and reset.
Returns the new counter and whether re-registration was triggered. -/
def loop_step (agent_id hub_url : String) (cf : ℕ) : ℕ × Bool :=
  if truthy (heartbeat agent_id hub_url) then (0, false)
  else
    let cf' := cf + 1
    if 5 ≤ cf' then (0, true) else (cf', false)

/-- `n` iterations of `main_loop`'s heartbeat logic starting from counter
0; returns the counter and the number of re-registrations triggered. -/
def loop_iters (agent_id hub_url : String) : ℕ → ℕ × ℕ
  | 0 => (0, 0)
  | n + 1 =>
    let p := loop_iters agent_id hub_url n
    let q := loop_step agent_id hub_url p.1
    (q.1, if q.2 then p.2 + 1 else p.2)

end ExoAgent

/-! ## Helper lemmas -/

namespace ExoStack

theorem setTask_cons_pos (p : String × TaskRec) (ps : List (String × TaskRec))
    (id : String) (t : TaskRec) (hp : (p.1 == id) = true) :
    setTask (p :: ps) id t = (p.1, t) :: setTask ps id t := by
  show List.map _ (p :: ps) = _
  rw [List.map_cons]
  congr 1
  exact if_pos hp

theorem setTask_cons_neg (p : String × TaskRec) (ps : List (String × TaskRec))
    (id : String) (t : TaskRec) (hp : ¬ ((p.1 == id) = true)) :
    setTask (p :: ps) id t = p :: setTask ps id t := by
  show List.map _ (p :: ps) = _
  rw [List.map_cons]
  congr 1
  exact if_neg hp

theorem lookupTask_cons_pos (p : String × TaskRec) (ps : List (String × TaskRec))
    (id : String) (hp : (p.1 == id) = true) :
    lookupTask (p :: ps) id = some p.2 := by
  unfold lookupTask
  rw [List.find?_cons_of_pos (p := fun (q : String × TaskRec) => q.1 == id) ps hp]
  rfl

theorem lookupTask_cons_neg (p : String × TaskRec) (ps : List (String × TaskRec))
    (id : String) (hp : ¬ ((p.1 == id) = true)) :
    lookupTask (p :: ps) id = lookupTask ps id := by
  unfold lookupTask
  rw [List.find?_cons_of_neg (p := fun (q : String × TaskRec) => q.1 == id) ps hp]

theorem lookupTask_setTask_self (ts : List (String × TaskRec)) (id : String)
    (t t0 : TaskRec) (h : lookupTask ts id = some t0) :
    lookupTask (setTask ts id t) id = some t := by
  induction ts with
  | nil => simp [lookupTask] at h
  | cons p ps ih =>
    by_cases hp : (p.1 == id) = true
    · rw [setTask_cons_pos p ps id t hp,
        lookupTask_cons_pos (p.1, t) (setTask ps id t) id hp]
    · rw [setTask_cons_neg p ps id t hp,
        lookupTask_cons_neg p (setTask ps id t) id hp]
      rw [lookupTask_cons_neg p ps id hp] at h
      exact ih h

theorem lookupTask_setTask_ne (ts : List (String × TaskRec)) (id id' : String)
    (t : TaskRec) (h : id' ≠ id) :
    lookupTask (setTask ts id t) id' = lookupTask ts id' := by
  induction ts with
  | nil => simp [lookupTask, setTask]
  | cons p ps ih =>
    by_cases hp : (p.1 == id) = true
    · have hkey : p.1 = id := by simpa using hp
      have hne : ¬ ((p.1 == id') = true) := by
        simp only [beq_iff_eq, hkey]
        exact fun hc => h hc.symm
      rw [setTask_cons_pos p ps id t hp,
        lookupTask_cons_neg (p.1, t) (setTask ps id t) id' hne,
        lookupTask_cons_neg p ps id' hne]
      exact ih
    · rw [setTask_cons_neg p ps id t hp]
      by_cases hq : (p.1 == id') = true
      · rw [lookupTask_cons_pos p (setTask ps id t) id' hq,
          lookupTask_cons_pos p ps id' hq]
      · rw [lookupTask_cons_neg p (setTask ps id t) id' hq,
          lookupTask_cons_neg p ps id' hq]
        exact ih

theorem get_node_eq_id (s : RegState) (x : String) (n : NodeRec)
    (h : get_node s x = some n) : n.id = x := by
  have := List.find?_some h
  simpa using this

/-- How `get_node` reads the state after `update_task_status` with an
explicit new owner: every node is mapped through `adjustActive`. -/
theorem get_node_update_some_owner (s : RegState) (task_id st nid : String)
    (res : Option ResultVal) (t : TaskRec)
    (ht : lookupTask s.tasks task_id = some t) (x : String) :
    get_node (update_task_status s task_id st (some nid) res).2 x =
      (get_node s x).map (adjustActive t.status t.node_id st (some nid)) := by
  simp only [update_task_status, ht, get_node, Option.or]
  rw [List.find?_map]
  have hpred : ((fun (n : NodeRec) => n.id == x)
      ∘ adjustActive t.status t.node_id st (some nid))
      = (fun (n : NodeRec) => n.id == x) :=
    funext fun _ => rfl
  rw [hpred]

/-- `update_task_status` with a known task and an explicit owner: the
resulting task record. -/
theorem get_task_update_some_owner (s : RegState) (task_id st nid : String)
    (res : Option ResultVal) (t : TaskRec)
    (ht : lookupTask s.tasks task_id = some t) :
    get_task (update_task_status s task_id st (some nid) res).2 task_id =
      some { t with status := st, node_id := some nid, result := res.or t.result } := by
  simp only [update_task_status, ht, get_task, Option.or]
  exact lookupTask_setTask_self _ _ _ _ ht

end ExoStack

open ExoStack

/-- C9: when the pending queue is empty, claiming the next task for an
existing online agent returns the "No pending tasks" success body (not an
error) and leaves the registry unchanged. -/
theorem claim_C9_empty_queue_returns_empty (s : RegState) (node_id : String)
    (n : NodeRec) (hn : get_node s node_id = some n) (hon : n.status = "online")
    (hp : s.pending = []) :
    get_next_task_for_agent s node_id = (.ok .noPending, s) := by
  simp [get_next_task_for_agent, hn, hon, get_pending_task, hp]

/-- Witness for C9 at the concrete state `sDone` (empty queue, `a1`
online). -/
theorem claim_C9_witness :
    get_next_task_for_agent sDone "a1" = (.ok .noPending, sDone) :=
  claim_C9_empty_queue_returns_empty sDone "a1"
    { id := "a1", status := "online" } (by decide) rfl rfl

/-- C3: completion and failure reports for a task the reporting agent
does not own fail with 403 (PermissionDenied) leaving the registry
unchanged, and reports for an unknown task fail with 404 (NotFound). -/
theorem claim_C3_ownership_enforced (s : RegState) (node_id task_id : String)
    (r : ResultVal) (e : String) :
    (get_task s task_id = none →
      complete_task_for_agent s node_id task_id r =
        (.error 404 "Task not found", s) ∧
      fail_task_for_agent s node_id task_id e =
        (.error 404 "Task not found", s)) ∧
    (∀ t, get_task s task_id = some t → t.node_id ≠ some node_id →
      complete_task_for_agent s node_id task_id r =
        (.error 403 "Task not assigned to this agent", s) ∧
      fail_task_for_agent s node_id task_id e =
        (.error 403 "Task not assigned to this agent", s)) := by
  constructor
  · intro h
    constructor <;> simp [complete_task_for_agent, fail_task_for_agent, h]
  · intro t ht hown
    constructor <;> simp [complete_task_for_agent, fail_task_for_agent, ht, hown]

/-- Witness for C3: agent `b` reporting on `a1`'s task `t1` is rejected
with 403, and reports on the unknown task `zz` are rejected with 404. -/
theorem claim_C3_witness :
    (complete_task_for_agent sDone "b" "t1" (.output "z") =
        (.error 403 "Task not assigned to this agent", sDone) ∧
      fail_task_for_agent sDone "b" "t1" "oops" =
        (.error 403 "Task not assigned to this agent", sDone)) ∧
    (complete_task_for_agent sDone "b" "zz" (.output "z") =
        (.error 404 "Task not found", sDone) ∧
      fail_task_for_agent sDone "b" "zz" "oops" =
        (.error 404 "Task not found", sDone)) :=
  ⟨(claim_C3_ownership_enforced sDone "b" "t1" (.output "z") "oops").2
      tDone (by decide) (by decide),
   (claim_C3_ownership_enforced sDone "b" "zz" (.output "z") "oops").1
      (by decide)⟩

/-- C2 (amended): a completion report by the owning agent always returns
success and stores the submitted result with status `completed`, whether
or not the task was already terminal and whether or not the result matches
the stored one — `complete_task_for_agent` performs no idempotency or
conflict check, so a conflicting repeat overwrites instead of returning
StateConflict. -/
theorem claim_C2_repeat_completion_overwrites (s : RegState)
    (node_id task_id : String) (r : ResultVal) (t : TaskRec)
    (ht : get_task s task_id = some t) (hown : t.node_id = some node_id) :
    complete_task_for_agent s node_id task_id r =
      (.ok ⟨"completed", task_id, node_id⟩,
        (update_task_status s task_id "completed" (some node_id) (some r)).2) ∧
    get_task (update_task_status s task_id "completed" (some node_id) (some r)).2
        task_id =
      some { t with
              status := "completed", node_id := some node_id,
              result := some r } := by
  have ht' : lookupTask s.tasks task_id = some t := ht
  constructor
  · simp [complete_task_for_agent, ht, hown, update_task_status, ht']
  · exact get_task_update_some_owner s task_id "completed" node_id (some r) t ht'

/-- Counterexample to C2 as stated: in `sDone`, task `t1` is completed
with stored result `{output: "x"}`; the owning agent `a1` re-reports
completion with the different result `{output: "y"}` and receives success
(HTTP 200, not StateConflict), and the stored result is overwritten. -/
theorem claim_C2_counterexample :
    tDone.result = some (.output "x") ∧
    (complete_task_for_agent sDone "a1" "t1" (.output "y")).1 =
      .ok ⟨"completed", "t1", "a1"⟩ ∧
    get_task (complete_task_for_agent sDone "a1" "t1" (.output "y")).2 "t1" =
      some { model := "m1", status := "completed", node_id := some "a1",
             result := some (.output "y") } := by
  refine ⟨rfl, ?_, ?_⟩ <;> decide

/-- Witness for C2's amended theorem at `sDone` with result
`{output: "y"}`. -/
theorem claim_C2_witness :
    complete_task_for_agent sDone "a1" "t1" (.output "y") =
      (.ok ⟨"completed", "t1", "a1"⟩,
        (update_task_status sDone "t1" "completed" (some "a1")
          (some (.output "y"))).2) ∧
    get_task (update_task_status sDone "t1" "completed" (some "a1")
        (some (.output "y"))).2 "t1" =
      some { tDone with
              status := "completed", node_id := some "a1",
              result := some (.output "y") } :=
  claim_C2_repeat_completion_overwrites sDone "a1" "t1" (.output "y") tDone
    (by decide) rfl

/-- C1 (amended): claiming the next task first verifies the agent exists
(404 otherwise) and is online (400 otherwise), failing without modifying
any state; whenever it returns a task id, that task's status has been set
to `running` (the source does not use a separate `assigned` status) with
owner = the claiming agent, and the agent's active-task counter is
incremented. -/
theorem claim_C1_claim_next_assigns_running (s : RegState) (node_id : String) :
    (get_node s node_id = none →
      get_next_task_for_agent s node_id = (.error 404 "Agent not found", s)) ∧
    (∀ n, get_node s node_id = some n → n.status ≠ "online" →
      get_next_task_for_agent s node_id = (.error 400 "Agent is not online", s)) ∧
    (∀ n task_id rest t, get_node s node_id = some n → n.status = "online" →
      s.pending = task_id :: rest → get_task s task_id = some t →
      t.status = "pending" →
      get_next_task_for_agent s node_id =
        (.ok (.assignedTask task_id t node_id),
          (update_task_status s task_id "running" (some node_id) none).2) ∧
      get_task (update_task_status s task_id "running" (some node_id) none).2
          task_id =
        some { t with status := "running", node_id := some node_id } ∧
      get_node (update_task_status s task_id "running" (some node_id) none).2
          node_id =
        some { n with active_tasks := some (n.active_tasks.getD 0 + 1) }) := by
  refine ⟨?_, ?_, ?_⟩
  · intro h
    simp [get_next_task_for_agent, h]
  · intro n hn hoff
    simp [get_next_task_for_agent, hn, hoff]
  · intro n task_id rest t hn hon hp ht hpend
    have ht' : lookupTask s.tasks task_id = some t := ht
    have hq : get_pending_task s = some task_id := by
      simp [get_pending_task, hp]
    refine ⟨?_, ?_, ?_⟩
    · simp [get_next_task_for_agent, hn, hon, hq, get_task, ht']
    · have := get_task_update_some_owner s task_id "running" node_id none t ht'
      simpa [Option.or] using this
    · rw [get_node_update_some_owner s task_id "running" node_id none t ht'
        node_id, hn]
      have hid : n.id = node_id := get_node_eq_id s node_id n hn
      simp [adjustActive, countedStatus, hpend, hid]

/-- Counterexample to C1 as stated: in `sClaim`, agent `a1` claims and is
returned task `t1`, whose status afterwards is `running`, not `assigned`
(the counter is incremented as the claim says). -/
theorem claim_C1_counterexample :
    (get_next_task_for_agent sClaim "a1").1 =
      .ok (.assignedTask "t1" { model := "m1", status := "pending" } "a1") ∧
    get_task (get_next_task_for_agent sClaim "a1").2 "t1" =
      some { model := "m1", status := "running", node_id := some "a1" } ∧
    "running" ≠ "assigned" ∧
    get_node (get_next_task_for_agent sClaim "a1").2 "a1" =
      some { id := "a1", status := "online", active_tasks := some 1 } := by
  refine ⟨?_, ?_, ?_, ?_⟩ <;> decide

/-- Witness for C1's amended theorem at the concrete state `sClaim`. -/
theorem claim_C1_witness :
    get_next_task_for_agent sClaim "a1" =
      (.ok (.assignedTask "t1" { model := "m1", status := "pending" } "a1"),
        (update_task_status sClaim "t1" "running" (some "a1") none).2) ∧
    get_task (update_task_status sClaim "t1" "running" (some "a1") none).2 "t1" =
      some { model := "m1", status := "running", node_id := some "a1" } ∧
    get_node (update_task_status sClaim "t1" "running" (some "a1") none).2 "a1" =
      some { id := "a1", status := "online", active_tasks := some 1 } :=
  (claim_C1_claim_next_assigns_running sClaim "a1").2.2
    { id := "a1", status := "online", active_tasks := some 0 } "t1" []
    { model := "m1", status := "pending" } (by decide) rfl rfl (by decide) rfl

/-- C7 (amended): the `POST /nodes/heartbeat` handler is a stub — for
every payload, registered or not, it returns the fixed "Heartbeat
received" success body echoing the payload; it consults no registry and
updates no last-heartbeat timestamp or status. -/
theorem claim_C7_heartbeat_is_stub (data : String) :
    heartbeat data = ⟨"Heartbeat received", data⟩ :=
  rfl

/-- Counterexample to C7 as stated: a heartbeat for the id
`never-registered` (no registration has ever occurred — the handler takes
no state at all) returns the success body rather than an UnknownAgent
error, and no record is updated. -/
theorem claim_C7_counterexample :
    heartbeat "never-registered" =
      ⟨"Heartbeat received", "never-registered"⟩ :=
  rfl

/-- C10: the agent-side helpers `register_agent` and `heartbeat` return
`None` for every input (they post and fall off the end), so in
`main_loop` the success branches are never taken: the registration retry
loop never reports success, each heartbeat counts as a consecutive
failure, and starting from a zero counter, after `n` iterations the
counter is `n % 5` and re-registration has been triggered exactly
`n / 5` times — i.e. on every fifth iteration. -/
theorem claim_C10_agent_helpers_return_none (agent_id hub_url : String)
    (n cf : ℕ) :
    ExoAgent.register_agent agent_id hub_url = none ∧
    ExoAgent.heartbeat agent_id hub_url = none ∧
    ExoAgent.register_loop agent_id hub_url n = false ∧
    ExoAgent.loop_step agent_id hub_url cf =
      (if 5 ≤ cf + 1 then 0 else cf + 1, decide (5 ≤ cf + 1)) ∧
    ExoAgent.loop_iters agent_id hub_url n = (n % 5, n / 5) := by
  refine ⟨rfl, rfl, ?_, ?_, ?_⟩
  · induction n with
    | zero => rfl
    | succ k ih => simpa [ExoAgent.register_loop, ExoAgent.register_agent,
        ExoAgent.truthy] using ih
  · by_cases h : 5 ≤ cf + 1 <;>
      simp [ExoAgent.loop_step, ExoAgent.heartbeat, ExoAgent.truthy, h]
  · induction n with
    | zero => rfl
    | succ k ih =>
      simp only [ExoAgent.loop_iters, ih, ExoAgent.loop_step,
        ExoAgent.heartbeat, ExoAgent.truthy]
      by_cases h : 5 ≤ k % 5 + 1
      · have h4 : k % 5 = 4 := by omega
        simp only [if_pos h]
        refine Prod.ext ?_ ?_ <;> simp <;> omega
      · simp only [if_neg h]
        refine Prod.ext ?_ ?_ <;> simp <;> omega

theorem betterOf_cases (x y : NodeRec × ℚ) : betterOf x y = x ∨ betterOf x y = y := by
  unfold betterOf
  by_cases hc : y.2 > x.2 <;> simp [hc]

theorem le_betterOf_left (x y : NodeRec × ℚ) : x.2 ≤ (betterOf x y).2 := by
  unfold betterOf
  by_cases hc : y.2 > x.2
  · rw [if_pos hc]; exact le_of_lt hc
  · rw [if_neg hc]

theorem le_betterOf_right (x y : NodeRec × ℚ) : y.2 ≤ (betterOf x y).2 := by
  unfold betterOf
  by_cases hc : y.2 > x.2
  · rw [if_pos hc]
  · rw [if_neg hc]; exact le_of_not_lt hc

theorem foldl_betterOf_mem (xs : List (NodeRec × ℚ)) :
    ∀ x, xs.foldl betterOf x ∈ x :: xs := by
  induction xs with
  | nil => intro x; simp
  | cons y ys ih =>
    intro x
    rw [List.foldl_cons]
    rcases List.mem_cons.mp (ih (betterOf x y)) with h1 | h1
    · rw [h1]
      rcases betterOf_cases x y with h2 | h2 <;> rw [h2] <;> simp
    · exact List.mem_cons_of_mem _ (List.mem_cons_of_mem _ h1)

theorem foldl_betterOf_le (xs : List (NodeRec × ℚ)) :
    ∀ x, x.2 ≤ (xs.foldl betterOf x).2 ∧
      ∀ y ∈ xs, y.2 ≤ (xs.foldl betterOf x).2 := by
  induction xs with
  | nil =>
    intro x
    exact ⟨le_refl _, by simp⟩
  | cons y ys ih =>
    intro x
    rw [List.foldl_cons]
    obtain ⟨hacc, hall⟩ := ih (betterOf x y)
    refine ⟨le_trans (le_betterOf_left x y) hacc, ?_⟩
    intro z hz
    rcases List.mem_cons.mp hz with rfl | hz'
    · exact le_trans (le_betterOf_right x z) hacc
    · exact hall z hz'

/-- `pickBest` returns a member of the list whose score is maximal. -/
theorem pickBest_spec (l : List (NodeRec × ℚ)) (b : NodeRec × ℚ)
    (h : pickBest l = some b) : b ∈ l ∧ ∀ y ∈ l, y.2 ≤ b.2 := by
  cases l with
  | nil => simp [pickBest] at h
  | cons x xs =>
    simp only [pickBest, Option.some.injEq] at h
    subst h
    obtain ⟨hacc, hall⟩ := foldl_betterOf_le xs x
    refine ⟨foldl_betterOf_mem xs x, ?_⟩
    intro y hy
    rcases List.mem_cons.mp hy with rfl | hy'
    · exact hacc
    · exact hall y hy'

/-- When `_score_candidates` recommends a candidate, it is a member of
the candidate list, its score strictly exceeds 50, and no candidate
scores higher. -/
theorem score_candidates_some (m : MgrState) (task : TaskRec)
    (cur : NodeRec) (cands : List NodeRec) (b : NodeRec)
    (h : score_candidates m task cur cands = some b) :
    b ∈ cands ∧ 50 < candidateScore m task b ∧
      ∀ c ∈ cands, candidateScore m task c ≤ candidateScore m task b := by
  unfold score_candidates at h
  cases hpb : pickBest (cands.map fun c => (c, candidateScore m task c)) with
  | none => rw [hpb] at h; exact absurd h (by simp)
  | some p =>
    rw [hpb] at h
    have h' : (if p.2 > 50 then some p.1 else none) = some b := h
    by_cases hgt : p.2 > 50
    · rw [if_pos hgt] at h'
      obtain ⟨hmem, hmax⟩ := pickBest_spec _ p hpb
      obtain ⟨c, hc, hpc⟩ := List.mem_map.mp hmem
      have hb : b = p.1 := (Option.some.injEq _ _ ▸ h').symm
      subst hb
      rw [← hpc]
      refine ⟨hc, ?_, ?_⟩
      · simpa [← hpc] using hgt
      · intro c' hc'
        have := hmax (c', candidateScore m task c')
          (List.mem_map.mpr ⟨c', hc', rfl⟩)
        simpa [← hpc] using this
    · rw [if_neg hgt] at h'
      exact absurd h' (by simp)

/-- When every candidate scores at most 50, `_score_candidates` returns
none. -/
theorem score_candidates_none (m : MgrState) (task : TaskRec)
    (cur : NodeRec) (cands : List NodeRec)
    (h : ∀ c ∈ cands, candidateScore m task c ≤ 50) :
    score_candidates m task cur cands = none := by
  unfold score_candidates
  cases hpb : pickBest (cands.map fun c => (c, candidateScore m task c)) with
  | none => rfl
  | some p =>
    obtain ⟨hmem, _⟩ := pickBest_spec _ p hpb
    obtain ⟨c, hc, hpc⟩ := List.mem_map.mp hmem
    have hle : p.2 ≤ 50 := by
      rw [← hpc]
      exact h c hc
    show (if p.2 > 50 then some p.1 else none) = none
    rw [if_neg (not_lt.mpr hle)]

/-- The per-candidate score computed by `_score_candidates` coincides with
the spec's formula whenever the candidate record carries all four
fields. -/
theorem candidateScore_eq_spec (m : MgrState) (task : TaskRec) (c : NodeRec)
    (l : ℚ) (a comp fl : ℕ) (hl : c.current_load = some l)
    (ha : c.active_tasks = some a) (hc : c.tasks_completed = some comp)
    (hf : c.tasks_failed = some fl) :
    candidateScore m task c =
      specTotalScore l a comp fl (supports_model m c.id task.model) := by
  unfold candidateScore specTotalScore
  rw [hl, ha, hc, hf]
  rfl

/-- The capability bonus condition: the candidate's declared models
contain the task's model, or the declared list is empty (universal). -/
theorem supports_model_iff (m : MgrState) (agent_id model_name : String) :
    supports_model m agent_id model_name = true ↔
      (model_name ∈ declared_models m agent_id ∨
        declared_models m agent_id = []) := by
  unfold supports_model
  simp [List.length_eq_zero]

theorem s5_candidate_agents : candidate_agents sS5 "a1" = [a2S5, a3S5] := by
  have h1 : (decide (((10:ℚ))⁻¹ < 7/10)) = true := by norm_num
  have h2 : (decide (((2:ℚ))⁻¹ < 7/10)) = true := by norm_num
  have hs1 : (("a1" : String) != "a1") = false := rfl
  have hs2 : (("a2" : String) != "a1") = true := rfl
  have hs3 : (("a3" : String) != "a1") = true := rfl
  have ho : (("online" : String) == "online") = true := rfl
  simp [candidate_agents, online_agents, get_all_nodes, sS5, a1S5, a2S5, a3S5,
    List.filter, h1, h2, hs1, hs2, hs3, ho]

theorem s5_score_a2 : candidateScore mS5 taskS5 a2S5 = 136 := by
  norm_num [candidateScore, a2S5, taskS5, mS5, supports_model, declared_models]

theorem s5_score_a3 : candidateScore mS5 taskS5 a3S5 = 85 := by
  have hne : (("a2" : String) == "a3") = false := rfl
  norm_num [candidateScore, a3S5, taskS5, mS5, supports_model, declared_models,
    List.find?, hne]

theorem s5_score_candidates :
    score_candidates mS5 taskS5 a1S5 [a2S5, a3S5] = some a2S5 := by
  have hb : betterOf (a2S5, (136:ℚ)) (a3S5, (85:ℚ)) = (a2S5, (136:ℚ)) := by
    unfold betterOf
    norm_num
  show (match pickBest [(a2S5, candidateScore mS5 taskS5 a2S5),
      (a3S5, candidateScore mS5 taskS5 a3S5)] with
    | some b => if b.2 > 50 then some b.1 else none
    | none => none) = some a2S5
  simp only [pickBest, List.foldl_cons, List.foldl_nil, s5_score_a2,
    s5_score_a3, hb]
  norm_num

theorem s5_evaluate :
    evaluate_handoff_candidate sS5 mS5 "t1" "a1" = some "a2" := by
  have hget : get_task sS5 "t1" = some taskS5 := rfl
  have hnode : get_node sS5 "a1" = some a1S5 := rfl
  simp only [evaluate_handoff_candidate, hget, hnode, s5_candidate_agents,
    s5_score_candidates, List.isEmpty_cons, Bool.false_eq_true, if_neg]
  rfl

/-- C4: each candidate's score equals the spec formula
`(1 − load) × 40 + max(0, 5 − active) × 10 + (completed/(completed+failed)) × 30
(or 0) + 20 iff the model is supported or the capability set is empty`;
the evaluator recommends the highest-scoring candidate only when its score
strictly exceeds 50, otherwise none; and under scenario S5's inputs `a2`
scores 36 + 50 + 30 + 20 = 136 and is recommended. -/
theorem claim_C4_handoff_scoring (m : MgrState) (task : TaskRec)
    (cur : NodeRec) (cands : List NodeRec) :
    (∀ c lq a comp fl, c.current_load = some lq → c.active_tasks = some a →
      c.tasks_completed = some comp → c.tasks_failed = some fl →
      candidateScore m task c =
        specTotalScore lq a comp fl (supports_model m c.id task.model)) ∧
    (∀ aid, supports_model m aid task.model = true ↔
      (task.model ∈ declared_models m aid ∨ declared_models m aid = [])) ∧
    (∀ b, score_candidates m task cur cands = some b →
      b ∈ cands ∧ 50 < candidateScore m task b ∧
        ∀ c ∈ cands, candidateScore m task c ≤ candidateScore m task b) ∧
    ((∀ c ∈ cands, candidateScore m task c ≤ 50) →
      score_candidates m task cur cands = none) ∧
    (candidateScore mS5 taskS5 a2S5 = 136 ∧
      specTotalScore ((1:ℚ)/10) 0 20 0 true = 36 + 50 + 30 + 20 ∧
      evaluate_handoff_candidate sS5 mS5 "t1" "a1" = some "a2") := by
  refine ⟨?_, ?_, ?_, ?_, s5_score_a2, ?_, s5_evaluate⟩
  · intro c lq a comp fl hl ha hc hf
    exact candidateScore_eq_spec m task c lq a comp fl hl ha hc hf
  · intro aid
    exact supports_model_iff m aid task.model
  · intro b hb
    exact score_candidates_some m task cur cands b hb
  · intro h
    exact score_candidates_none m task cur cands h
  · norm_num [specTotalScore]

/-- Witness for C4 at scenario S5: the score formula evaluated at `a2`,
the recommendation facts for the S5 candidate list, and the none result
on an empty candidate list. -/
theorem claim_C4_witness :
    candidateScore mS5 taskS5 a2S5 =
      specTotalScore ((1:ℚ)/10) 0 20 0
        (supports_model mS5 a2S5.id taskS5.model) ∧
    a2S5 ∈ [a2S5, a3S5] ∧
    50 < candidateScore mS5 taskS5 a2S5 ∧
    candidateScore mS5 taskS5 a3S5 ≤ candidateScore mS5 taskS5 a2S5 ∧
    score_candidates mS5 taskS5 a1S5 [] = none :=
  ⟨(claim_C4_handoff_scoring mS5 taskS5 a1S5 [a2S5, a3S5]).1 a2S5
      ((1:ℚ)/10) 0 20 0 rfl rfl rfl rfl,
   ((claim_C4_handoff_scoring mS5 taskS5 a1S5 [a2S5, a3S5]).2.2.1 a2S5
      s5_score_candidates).1,
   ((claim_C4_handoff_scoring mS5 taskS5 a1S5 [a2S5, a3S5]).2.2.1 a2S5
      s5_score_candidates).2.1,
   ((claim_C4_handoff_scoring mS5 taskS5 a1S5 [a2S5, a3S5]).2.2.1 a2S5
      s5_score_candidates).2.2 a3S5 (by simp),
   (claim_C4_handoff_scoring mS5 taskS5 a1S5 []).2.2.2.1
      (fun c hc => absurd hc (List.not_mem_nil c))⟩

/-- C5: the candidate set `evaluate_handoff_candidate` scores is exactly
the registered agents that are online, differ from the caller, and have
`current_load < 0.7` and `active_tasks < 3`; when that set is empty the
evaluator returns none. -/
theorem claim_C5_candidate_selection (s : RegState) (m : MgrState)
    (task_id caller : String) :
    candidate_agents s caller = s.nodes.filter (fun a =>
      (a.status == "online") && ((a.id != caller) &&
        decide ((a.current_load.getD 0) < 7/10) &&
        decide ((a.active_tasks.getD 0) < 3))) ∧
    (∀ task cur, get_task s task_id = some task →
      get_node s caller = some cur → candidate_agents s caller = [] →
      evaluate_handoff_candidate s m task_id caller = none) := by
  constructor
  · unfold candidate_agents online_agents get_all_nodes
    rw [List.filter_filter]
    congr 1
    funext a
    rw [Bool.and_comm]
  · intro task cur ht hn hempty
    simp [evaluate_handoff_candidate, ht, hn, hempty]

/-- Witness for C5 at `sDone`, where the only online agent is the caller
itself, so the candidate set is empty and the evaluator returns none. -/
theorem claim_C5_witness :
    evaluate_handoff_candidate sDone mS5 "t1" "a1" = none :=
  (claim_C5_candidate_selection sDone mS5 "t1" "a1").2 tDone
    { id := "a1", status := "online" } rfl rfl rfl

theorem find?_removeActive (l : List (String × HandoffRecord)) (tid : String) :
    (removeActive l tid).find? (fun p => p.1 == tid) = none := by
  rw [List.find?_eq_none]
  intro x hx
  have hq := (List.mem_filter.mp hx).2
  simpa [bne] using hq

/-- The components of a successful `initiate_handoff` (task known, target
online, notification delivered): result true, registry updated through
`update_task_status`, the completed record appended to the history, the
active record removed (the `finally` block), and the program-order
trace. -/
theorem initiate_handoff_success (s : RegState) (m : MgrState)
    (tid fa ta : String) (now : ℕ) (t : TaskRec) (tgt : NodeRec)
    (ht : get_task s tid = some t) (htgt : get_node s ta = some tgt)
    (hon : tgt.status = "online") :
    (initiate_handoff s m tid fa ta true now).1 = true ∧
    (initiate_handoff s m tid fa ta true now).2.1 =
      (update_task_status s tid "running" (some ta) none).2 ∧
    (initiate_handoff s m tid fa ta true now).2.2.1.handoff_history =
      m.handoff_history ++ [⟨tid, fa, ta, now, "completed", some now⟩] ∧
    (initiate_handoff s m tid fa ta true now).2.2.1.active_handoffs =
      removeActive (setActive (setActive m.active_handoffs tid
        ⟨tid, fa, ta, now, "pending", none⟩) tid
        ⟨tid, fa, ta, now, "completed", some now⟩) tid ∧
    (initiate_handoff s m tid fa ta true now).2.2.2 =
      [.activeInsert tid, .registryReassign tid ta,
        .historyAppend ⟨tid, fa, ta, now, "completed", some now⟩,
        .activeRemove tid] := by
  refine ⟨?_, ?_, ?_, ?_, ?_⟩ <;> simp [initiate_handoff, ht, htgt, hon]

theorem initiate_preserves (s : RegState) (m : MgrState)
    (tid fa ta : String) (now : ℕ) (h : handoffReady s tid ta) :
    handoffReady (initiate_handoff s m tid fa ta true now).2.1 tid ta ∧
    (initiate_handoff s m tid fa ta true now).2.2.1.handoff_history =
      m.handoff_history ++ [⟨tid, fa, ta, now, "completed", some now⟩] := by
  obtain ⟨⟨t, ht⟩, ⟨tgt, htgt, hon⟩⟩ := h
  obtain ⟨-, hs, hh, -, -⟩ :=
    initiate_handoff_success s m tid fa ta now t tgt ht htgt hon
  refine ⟨?_, hh⟩
  rw [hs]
  constructor
  · exact ⟨_, get_task_update_some_owner s tid "running" ta none t ht⟩
  · refine ⟨adjustActive t.status t.node_id "running" (some ta) tgt, ?_, hon⟩
    rw [get_node_update_some_owner s tid "running" ta none t ht ta, htgt]
    rfl

theorem iterate_handoffs_length (s : RegState) (m : MgrState)
    (tid fa ta : String) (now : ℕ) (n : ℕ) (h : handoffReady s tid ta) :
    handoffReady (iterate_handoffs s m tid fa ta now n).1 tid ta ∧
    (iterate_handoffs s m tid fa ta now n).2.handoff_history.length =
      m.handoff_history.length + n := by
  induction n with
  | zero => exact ⟨h, rfl⟩
  | succ k ih =>
    obtain ⟨hready, hlen⟩ := ih
    obtain ⟨hready', happ⟩ := initiate_preserves
      (iterate_handoffs s m tid fa ta now k).1
      (iterate_handoffs s m tid fa ta now k).2 tid fa ta now hready
    constructor
    · exact hready'
    · show (initiate_handoff (iterate_handoffs s m tid fa ta now k).1
        (iterate_handoffs s m tid fa ta now k).2 tid fa ta true
        now).2.2.1.handoff_history.length = _
      rw [happ, List.length_append, hlen]
      simp only [List.length_cons, List.length_nil]
      omega

/-- C6: `initiate_handoff` returns failure without touching the registry
when the task is unknown or the target agent is missing or not online
(the task is never reassigned; only the `finally` block's cleanup of the
task's active-handoff entry runs, and the history is untouched); and on
success the registry records the target agent as the task's owner, the
completed handoff record is appended to the history strictly before the
active-handoff record is removed (the trace positions 2 < 3), and no
active record for the task remains. -/
theorem claim_C6_execute_handoff (s : RegState) (m : MgrState)
    (task_id from_agent to_agent : String) (notify_ok : Bool) (now : ℕ) :
    (get_task s task_id = none →
      initiate_handoff s m task_id from_agent to_agent notify_ok now =
        (false, s,
          { m with active_handoffs := removeActive m.active_handoffs task_id },
          [.activeRemove task_id])) ∧
    (∀ t, get_task s task_id = some t → get_node s to_agent = none →
      initiate_handoff s m task_id from_agent to_agent notify_ok now =
        (false, s,
          { m with active_handoffs := removeActive m.active_handoffs task_id },
          [.activeRemove task_id])) ∧
    (∀ t tgt, get_task s task_id = some t → get_node s to_agent = some tgt →
      tgt.status ≠ "online" →
      initiate_handoff s m task_id from_agent to_agent notify_ok now =
        (false, s,
          { m with active_handoffs := removeActive m.active_handoffs task_id },
          [.activeRemove task_id])) ∧
    (∀ t tgt, get_task s task_id = some t → get_node s to_agent = some tgt →
      tgt.status = "online" →
      (initiate_handoff s m task_id from_agent to_agent true now).1 = true ∧
      get_task (initiate_handoff s m task_id from_agent to_agent true
          now).2.1 task_id =
        some { t with
                status := "running", node_id := some to_agent } ∧
      (initiate_handoff s m task_id from_agent to_agent true
          now).2.2.1.handoff_history =
        m.handoff_history ++
          [⟨task_id, from_agent, to_agent, now, "completed", some now⟩] ∧
      (initiate_handoff s m task_id from_agent to_agent true now).2.2.2 =
        [.activeInsert task_id, .registryReassign task_id to_agent,
          .historyAppend ⟨task_id, from_agent, to_agent, now, "completed",
            some now⟩,
          .activeRemove task_id] ∧
      ((initiate_handoff s m task_id from_agent to_agent true
          now).2.2.2.get? 2 =
        some (.historyAppend ⟨task_id, from_agent, to_agent, now,
          "completed", some now⟩) ∧
       (initiate_handoff s m task_id from_agent to_agent true
          now).2.2.2.get? 3 = some (.activeRemove task_id) ∧ (2:ℕ) < 3) ∧
      (initiate_handoff s m task_id from_agent to_agent true
          now).2.2.1.active_handoffs.find? (fun p => p.1 == task_id) =
        none) := by
  refine ⟨?_, ?_, ?_, ?_⟩
  · intro h
    simp [initiate_handoff, h]
  · intro t ht hn
    simp [initiate_handoff, ht, hn]
  · intro t tgt ht hn hoff
    simp [initiate_handoff, ht, hn, hoff]
  · intro t tgt ht hn hon
    obtain ⟨h1, hs, hh, hact, htr⟩ :=
      initiate_handoff_success s m task_id from_agent to_agent now t tgt
        ht hn hon
    refine ⟨h1, ?_, hh, htr, ⟨?_, ?_, by norm_num⟩, ?_⟩
    · rw [hs]
      have := get_task_update_some_owner s task_id "running" to_agent none t ht
      simpa [Option.or] using this
    · rw [htr]
      rfl
    · rw [htr]
      rfl
    · rw [hact]
      exact find?_removeActive _ _

/-- Witness for C6 at `sHandoff`: handing `t1` off from `a1` to the
online agent `a2` with a delivered notification succeeds with the stated
effects, and handing off the unknown task `zz` fails with the registry
unchanged and only the `finally` cleanup applied. -/
theorem claim_C6_witness :
    (initiate_handoff sHandoff mEmpty "zz" "a1" "a2" true 0 =
      (false, sHandoff,
        { mEmpty with
            active_handoffs := removeActive mEmpty.active_handoffs "zz" },
        [.activeRemove "zz"])) ∧
    (initiate_handoff sHandoff mEmpty "t1" "a1" "a2" true 0).1 = true ∧
    get_task (initiate_handoff sHandoff mEmpty "t1" "a1" "a2" true
        0).2.1 "t1" =
      some { tRunning with
              status := "running", node_id := some "a2" } ∧
    (initiate_handoff sHandoff mEmpty "t1" "a1" "a2" true
        0).2.2.1.handoff_history =
      mEmpty.handoff_history ++ [⟨"t1", "a1", "a2", 0, "completed", some 0⟩] ∧
    (initiate_handoff sHandoff mEmpty "t1" "a1" "a2" true 0).2.2.2 =
      [.activeInsert "t1", .registryReassign "t1" "a2",
        .historyAppend ⟨"t1", "a1", "a2", 0, "completed", some 0⟩,
        .activeRemove "t1"] ∧
    ((initiate_handoff sHandoff mEmpty "t1" "a1" "a2" true 0).2.2.2.get? 2 =
      some (.historyAppend ⟨"t1", "a1", "a2", 0, "completed", some 0⟩) ∧
     (initiate_handoff sHandoff mEmpty "t1" "a1" "a2" true 0).2.2.2.get? 3 =
      some (.activeRemove "t1") ∧ (2:ℕ) < 3) ∧
    (initiate_handoff sHandoff mEmpty "t1" "a1" "a2" true
        0).2.2.1.active_handoffs.find? (fun p => p.1 == "t1") = none :=
  ⟨(claim_C6_execute_handoff sHandoff mEmpty "zz" "a1" "a2" true 0).1
      (by decide),
   (claim_C6_execute_handoff sHandoff mEmpty "t1" "a1" "a2" true 0).2.2.2
      tRunning { id := "a2", status := "online" } rfl rfl rfl⟩

/-- C8 (amended): the handoff history is an unbounded append-only list —
each successful `initiate_handoff` appends one record and none are ever
dropped, so after `n` successful handoffs its length is the initial
length plus `n` (there is no 10 000-entry ring); `get_handoff_stats`
computes its totals, success count and rate, active count, and the
rolling per-hour rate over the last 24 hours (86 400 s) from that full
history. -/
theorem claim_C8_history_unbounded (s : RegState) (m : MgrState)
    (tid fa ta : String) (now n : ℕ) (h : handoffReady s tid ta) :
    (iterate_handoffs s m tid fa ta now n).2.handoff_history.length =
      m.handoff_history.length + n ∧
    (∀ (mg : MgrState) (t0 : ℕ), mg.handoff_history ≠ [] →
      (get_handoff_stats mg t0).total_handoffs =
        mg.handoff_history.length ∧
      (get_handoff_stats mg t0).successful_handoffs =
        some (mg.handoff_history.filter
          (fun r => r.status == "completed")).length ∧
      (get_handoff_stats mg t0).success_rate =
        (((mg.handoff_history.filter
          (fun r => r.status == "completed")).length : ℚ)
            / (mg.handoff_history.length : ℚ)) * 100 ∧
      (get_handoff_stats mg t0).active_handoffs =
        some mg.active_handoffs.length ∧
      (get_handoff_stats mg t0).average_handoffs_per_hour =
        ((mg.handoff_history.filter
          (fun r => ((t0 : ℤ) - (r.initiated_at : ℤ)) < 86400)).length : ℚ)
          / 24) := by
  constructor
  · exact (iterate_handoffs_length s m tid fa ta now n h).2
  · intro mg t0 hne
    have hlen : ¬ (mg.handoff_history.length = 0) := by
      simpa [List.length_eq_zero] using hne
    refine ⟨?_, ?_, ?_, ?_, ?_⟩ <;> simp [get_handoff_stats, hlen]

/-- Counterexample to C8 as stated: starting from an empty history, a
sequence of 10 001 successful handoffs leaves the history at length
10 001, exceeding the claimed 10 000-entry bound (nothing is dropped). -/
theorem claim_C8_counterexample :
    (iterate_handoffs sHandoff mEmpty "t1" "a1" "a2" 0
        10001).2.handoff_history.length = 10001 ∧
    10000 < 10001 := by
  have hready : handoffReady sHandoff "t1" "a2" :=
    ⟨⟨tRunning, rfl⟩, ⟨{ id := "a2", status := "online" }, rfl, rfl⟩⟩
  have h := (iterate_handoffs_length sHandoff mEmpty "t1" "a1" "a2" 0
    10001 hready).2
  constructor
  · simpa using h
  · norm_num

/-- Witness for C8's amended theorem: three successful handoffs grow the
history by three, and the statistics of the resulting one-step state are
computed from its full history. -/
theorem claim_C8_witness :
    (iterate_handoffs sHandoff mEmpty "t1" "a1" "a2" 0
        3).2.handoff_history.length = mEmpty.handoff_history.length + 3 ∧
    (get_handoff_stats
        (iterate_handoffs sHandoff mEmpty "t1" "a1" "a2" 0 1).2
        0).total_handoffs =
      (iterate_handoffs sHandoff mEmpty "t1" "a1" "a2" 0
        1).2.handoff_history.length ∧
    (get_handoff_stats
        (iterate_handoffs sHandoff mEmpty "t1" "a1" "a2" 0 1).2
        0).active_handoffs =
      some (iterate_handoffs sHandoff mEmpty "t1" "a1" "a2" 0
        1).2.active_handoffs.length :=
  ⟨(claim_C8_history_unbounded sHandoff mEmpty "t1" "a1" "a2" 0 3
      ⟨⟨tRunning, rfl⟩, ⟨{ id := "a2", status := "online" }, rfl, rfl⟩⟩).1,
   ((claim_C8_history_unbounded sHandoff mEmpty "t1" "a1" "a2" 0 3
      ⟨⟨tRunning, rfl⟩, ⟨{ id := "a2", status := "online" }, rfl, rfl⟩⟩).2
      (iterate_handoffs sHandoff mEmpty "t1" "a1" "a2" 0 1).2 0
      (by decide)).1,
   ((claim_C8_history_unbounded sHandoff mEmpty "t1" "a1" "a2" 0 3
      ⟨⟨tRunning, rfl⟩, ⟨{ id := "a2", status := "online" }, rfl, rfl⟩⟩).2
      (iterate_handoffs sHandoff mEmpty "t1" "a1" "a2" 0 1).2 0
      (by decide)).2.2.2.1⟩
